import Mathlib

/-!
Verification development for the flick_forge request-to-catalog pipeline.

The repository sources available here are the frontend JavaScript client
(`static/js/api.js`, `static/js/main.js`) together with the README; the Flask
backend (models, routes) is referenced by those sources but absent.  Backend
components (Vote Ledger, Generation Job Runner, Permission Guard) are therefore
modelled from the specification, as marked on each such definition; everything
else is a direct shallow embedding of the JavaScript source.
-/

namespace FlickForge

/-! ## Vote Ledger (spec §4.4)

The ledger state is the list of stored vote records, newest first.  A record is
keyed by (actor, target); directions are up or down. -/

inductive Direction where
  | up
  | down
deriving DecidableEq

structure VoteRec where
  actor : Nat
  target : Nat
  dir : Direction
deriving DecidableEq

/-- Does a stored vote record belong to the (actor, target) key? -/
def voteKeyMatches (a t : Nat) (v : VoteRec) : Bool :=
  v.actor == a && v.target == t

/-- Modelled from the spec: the Vote Ledger backend (SQLAlchemy models and the
Flask routes behind `POST /wild-west/:id/vote` and `POST /requests/:id/vote`)
is not among the repository's static sources.  Per §4.4 a new vote from the
same actor on the same target replaces, never duplicates, the prior one. -/
def castVote (a t : Nat) (d : Direction) (votes : List VoteRec) : List VoteRec :=
  ⟨a, t, d⟩ :: votes.filter (fun v => !(voteKeyMatches a t v))

/-- Modelled from the spec: §4.4 `removeVote(actor, targetId)` deletes the
actor's vote on the target. -/
def removeVote (a t : Nat) (votes : List VoteRec) : List VoteRec :=
  votes.filter (fun v => !(voteKeyMatches a t v))

/-- The direction currently stored for (actor, target), if any. -/
def voteOf (a t : Nat) (votes : List VoteRec) : Option Direction :=
  (votes.find? (voteKeyMatches a t)).map (·.dir)

/-- Modelled from the spec: §4.4 `tally(targetId) → (up, down)`, recomputed by
scanning the current vote set for the target. -/
def tally (t : Nat) (votes : List VoteRec) : Nat × Nat :=
  ((votes.filter (fun v => v.target == t && decide (v.dir = Direction.up))).length,
   (votes.filter (fun v => v.target == t && decide (v.dir = Direction.down))).length)

/-! ## Wild-west vote buttons (main.js, `initVoteButtons`, lines 523–555)

A vote button carries the `active` CSS class state and the displayed
`.vote-count` text.  On a successful click for a wild-west app the handler
calls `API.wildWest.vote(appId, type)`, toggles `active`, and then runs
`count += btn.classList.contains('active') ? 1 : -1`. -/

structure VoteButton where
  active : Bool
  count : Int
deriving DecidableEq

/-- Shallow embedding of one successful click of a wild-west vote button
(main.js lines 530–549, `appId` branch): the server applies the vote, then the
button toggles and the displayed count is incremented or decremented according
to the new `active` state. -/
def clickWildWestVote (actor appId : Nat) (d : Direction) (btn : VoteButton)
    (ledger : List VoteRec) : VoteButton × List VoteRec :=
  let ledger' := castVote actor appId d ledger
  let active' := !btn.active
  let count' := btn.count + (if active' then 1 else -1)
  (⟨active', count'⟩, ledger')

/-! ### Claim C3 -/

/-- C3: `castVote` is idempotent in direction — casting the same direction
twice leaves the vote state (hence the tally) unchanged, and casting a new
direction on top of a prior vote replaces it: the stored direction becomes the
new one and exactly one record for the (actor, target) pair remains. -/
theorem castVote_idempotent_and_replaces (a t : Nat) (d dPrev : Direction)
    (s : List VoteRec) :
    castVote a t d (castVote a t d s) = castVote a t d s ∧
    tally t (castVote a t d (castVote a t d s)) = tally t (castVote a t d s) ∧
    voteOf a t (castVote a t d (castVote a t dPrev s)) = some d ∧
    ((castVote a t d (castVote a t dPrev s)).filter (voteKeyMatches a t)).length = 1 := by
  have hkey : voteKeyMatches a t ⟨a, t, d⟩ = true := by
    simp [voteKeyMatches]
  have hkeyPrev : voteKeyMatches a t ⟨a, t, dPrev⟩ = true := by
    simp [voteKeyMatches]
  have hstate : castVote a t d (castVote a t d s) = castVote a t d s := by
    simp [castVote, hkey, List.filter_filter]
  refine ⟨hstate, by rw [hstate], ?_, ?_⟩
  · simp [castVote, voteOf, List.find?, hkey]
  · have hdrop : ∀ l : List VoteRec,
        (l.filter (fun v => !(voteKeyMatches a t v))).filter (voteKeyMatches a t) = [] := by
      intro l
      simp [List.filter_filter]
    simp [castVote, List.filter_cons, hkey, hkeyPrev, hdrop]

/-! ### Claim C1 -/

/-- C1: evaluation of the vote-button code at the failing input.  The same
user (actor 7) clicks the same wild-west up-vote button (app 3, initially
inactive, displayed count 0) twice; both API calls succeed.  The handler
maintains the displayed count by `count += active ? 1 : -1` on each toggle, so
the display returns to 0, while the vote set still holds the actor's up vote
and its recomputed tally is (1, 0): the displayed tally is maintained by
incrementing a counter independently of vote existence and drifts from the
last direction cast. -/
theorem displayed_count_drifts_from_vote_set :
    (clickWildWestVote 7 3 Direction.up
        (clickWildWestVote 7 3 Direction.up ⟨false, 0⟩ []).1
        (clickWildWestVote 7 3 Direction.up ⟨false, 0⟩ []).2).1.count = 0 ∧
    voteOf 7 3 (clickWildWestVote 7 3 Direction.up
        (clickWildWestVote 7 3 Direction.up ⟨false, 0⟩ []).1
        (clickWildWestVote 7 3 Direction.up ⟨false, 0⟩ []).2).2 = some Direction.up ∧
    tally 3 (clickWildWestVote 7 3 Direction.up
        (clickWildWestVote 7 3 Direction.up ⟨false, 0⟩ []).1
        (clickWildWestVote 7 3 Direction.up ⟨false, 0⟩ []).2).2 = (1, 0) := by
  decide

/-! ## Generation Job Runner (spec §4.2)

Modelled from the spec: the runner itself (the backend driving
`utils/claude_code.py`) is not among the repository's static sources; §4.2
gives its contract: at most one Running job per request, Conflict on duplicate
submission, attempt fencing for completions. -/

inductive JobStatus where
  | running
  | succeeded
  | failed
  | timedOut
  | cancelled
deriving DecidableEq

structure GenJob where
  id : Nat
  requestId : Nat
  attempt : Nat
  status : JobStatus
deriving DecidableEq

structure ReqEntry where
  requestId : Nat
  currentAttempt : Nat
  result : Option Nat
deriving DecidableEq

structure RunnerState where
  jobs : List GenJob
  reqs : List ReqEntry
  nextJobId : Nat
deriving DecidableEq

inductive RunnerError where
  | conflict
deriving DecidableEq

/-- Is some job for this request currently Running? -/
def hasRunning (r : Nat) (s : RunnerState) : Bool :=
  s.jobs.any (fun j => j.requestId == r && decide (j.status = JobStatus.running))

/-- Record the attempt now current for the request (insert or update). -/
def upsertReq (r a : Nat) (reqs : List ReqEntry) : List ReqEntry :=
  if reqs.any (fun e => e.requestId == r) then
    reqs.map (fun e => if e.requestId == r then { e with currentAttempt := a } else e)
  else ⟨r, a, none⟩ :: reqs

/-- Modelled from the spec: §4.2 `submit(requestId, prompt, attempt) → jobId`,
rejecting with a Conflict error — without queueing or starting a second job —
when a Running job already exists for the same requestId. -/
def submit (r a : Nat) (s : RunnerState) : Except RunnerError (RunnerState × Nat) :=
  if hasRunning r s then .error .conflict
  else .ok ({ jobs := ⟨s.nextJobId, r, a, .running⟩ :: s.jobs,
              reqs := upsertReq r a s.reqs,
              nextJobId := s.nextJobId + 1 }, s.nextJobId)

/-- The attempt number currently on record for the request. -/
def currentAttemptOf (r : Nat) (s : RunnerState) : Option Nat :=
  (s.reqs.find? (fun e => e.requestId == r)).map (·.currentAttempt)

/-- Modelled from the spec: §4.2 completion handling with attempt fencing —
a completion message carries the attempt number it was issued for, and the
runner drops any completion whose attempt number does not match the request's
current attempt; a matching completion stores the artifact and moves the
running job of that attempt to Succeeded. -/
def applyCompletion (r a artifact : Nat) (s : RunnerState) : RunnerState :=
  match s.reqs.find? (fun e => e.requestId == r) with
  | none => s
  | some e =>
    if e.currentAttempt == a then
      { s with
        reqs := s.reqs.map (fun e2 =>
          if e2.requestId == r then { e2 with result := some artifact } else e2),
        jobs := s.jobs.map (fun j =>
          if j.requestId == r && j.attempt == a && decide (j.status = JobStatus.running) then
            { j with status := .succeeded }
          else j) }
    else s

/-- Modelled from the spec: §4.2 — a timeout or a cancellation moves a Running
job to the corresponding terminal status. -/
def markTerminal (jobId : Nat) (st : JobStatus) (s : RunnerState) : RunnerState :=
  { s with jobs := s.jobs.map (fun j =>
      if j.id == jobId && decide (j.status = JobStatus.running) then
        { j with status := st }
      else j) }

inductive RunnerOp where
  | submitJob (requestId attempt : Nat)
  | completion (requestId attempt artifact : Nat)
  | jobTimeout (jobId : Nat)
  | jobCancel (jobId : Nat)
deriving DecidableEq

/-- One step of the runner; a rejected submission leaves the state unchanged. -/
def step (op : RunnerOp) (s : RunnerState) : RunnerState :=
  match op with
  | .submitJob r a =>
    match submit r a s with
    | .ok p => p.1
    | .error _ => s
  | .completion r a art => applyCompletion r a art s
  | .jobTimeout j => markTerminal j .timedOut s
  | .jobCancel j => markTerminal j .cancelled s

def runOps (ops : List RunnerOp) (s : RunnerState) : RunnerState :=
  ops.foldl (fun s op => step op s) s

def initialRunner : RunnerState := ⟨[], [], 0⟩

/-- Two distinct jobs may not both be Running for the same request. -/
def runningRel (j1 j2 : GenJob) : Prop :=
  j1.status = JobStatus.running → j2.status = JobStatus.running →
    j1.requestId ≠ j2.requestId

/-- Invariant: for each request, at most one job is Running. -/
def OneRunningPerRequest (s : RunnerState) : Prop :=
  s.jobs.Pairwise runningRel

lemma pairwise_runningRel_map (l : List GenJob) (f : GenJob → GenJob)
    (hreq : ∀ j, (f j).requestId = j.requestId)
    (hrun : ∀ j, (f j).status = JobStatus.running → j.status = JobStatus.running)
    (h : l.Pairwise runningRel) : (l.map f).Pairwise runningRel := by
  refine h.map f ?_
  intro a b hab h1 h2
  rw [hreq a, hreq b]
  exact hab (hrun a h1) (hrun b h2)

lemma applyCompletion_preserves_oneRunning (r a art : Nat) (s : RunnerState)
    (h : OneRunningPerRequest s) : OneRunningPerRequest (applyCompletion r a art s) := by
  unfold applyCompletion
  split
  · exact h
  · split
    · refine pairwise_runningRel_map s.jobs _ ?_ ?_ h
      · intro j
        by_cases hc : (j.requestId == r && j.attempt == a
            && decide (j.status = JobStatus.running)) = true <;> simp [hc]
      · intro j hrun
        by_cases hc : (j.requestId == r && j.attempt == a
            && decide (j.status = JobStatus.running)) = true
        · simp [hc] at hrun
        · simpa [hc] using hrun
    · exact h

lemma markTerminal_preserves_oneRunning (jobId : Nat) (st : JobStatus)
    (hst : st ≠ JobStatus.running) (s : RunnerState)
    (h : OneRunningPerRequest s) : OneRunningPerRequest (markTerminal jobId st s) := by
  refine pairwise_runningRel_map s.jobs _ ?_ ?_ h
  · intro j
    by_cases hc : (j.id == jobId && decide (j.status = JobStatus.running)) = true <;> simp [hc]
  · intro j hrun
    by_cases hc : (j.id == jobId && decide (j.status = JobStatus.running)) = true
    · exact absurd (by simpa [hc] using hrun) hst
    · simpa [hc] using hrun

lemma step_preserves_oneRunning (op : RunnerOp) (s : RunnerState)
    (h : OneRunningPerRequest s) : OneRunningPerRequest (step op s) := by
  cases op with
  | submitJob r a =>
    show OneRunningPerRequest
      (match submit r a s with | .ok p => p.1 | .error _ => s)
    unfold submit
    by_cases hr : hasRunning r s = true
    · rw [if_pos hr]; exact h
    · rw [if_neg hr]
      refine List.Pairwise.cons ?_ h
      intro j hj h1 h2 hreq
      simp only [hasRunning, List.any_eq_true, Bool.and_eq_true, beq_iff_eq,
        decide_eq_true_eq, not_exists, not_and] at hr
      exact hr j hj hreq.symm h2
  | completion r a art => exact applyCompletion_preserves_oneRunning r a art s h
  | jobTimeout j =>
    exact markTerminal_preserves_oneRunning j JobStatus.timedOut (by simp) s h
  | jobCancel j =>
    exact markTerminal_preserves_oneRunning j JobStatus.cancelled (by simp) s h

lemma runOps_preserves_oneRunning (ops : List RunnerOp) (s : RunnerState)
    (h : OneRunningPerRequest s) : OneRunningPerRequest (runOps ops s) := by
  induction ops generalizing s with
  | nil => exact h
  | cons op rest ih => exact ih (step op s) (step_preserves_oneRunning op s h)

/-! ### Claim C2 -/

/-- C2: along every execution of the Generation Job Runner from the initial
state, each request has at most one job in Running status; and a submission
against a request that already has a Running job returns a Conflict error and
leaves the runner state unchanged (no second job queued or started). -/
theorem one_running_job_per_request :
    (∀ ops : List RunnerOp, OneRunningPerRequest (runOps ops initialRunner)) ∧
    (∀ (s : RunnerState) (r a : Nat), hasRunning r s = true →
      submit r a s = .error .conflict ∧ step (.submitJob r a) s = s) := by
  constructor
  · intro ops
    exact runOps_preserves_oneRunning ops initialRunner List.Pairwise.nil
  · intro s r a hr
    constructor
    · simp [submit, hr]
    · simp [step, submit, hr]

/-- A concrete runner state with one Running job for request 1 at attempt 2. -/
def exampleRunner : RunnerState :=
  { jobs := [⟨0, 1, 2, .running⟩], reqs := [⟨1, 2, none⟩], nextJobId := 1 }

/-- C2 witness: a concrete execution (submit then a duplicate submit for
request 1) keeps the one-Running-job invariant, and a duplicate submission
against `exampleRunner` yields Conflict and changes nothing. -/
theorem one_running_job_per_request_witness :
    OneRunningPerRequest
      (runOps [.submitJob 1 1, .submitJob 1 2] initialRunner) ∧
    hasRunning 1 exampleRunner = true ∧
    submit 1 3 exampleRunner = .error .conflict ∧
    step (.submitJob 1 3) exampleRunner = exampleRunner := by
  refine ⟨one_running_job_per_request.1 [.submitJob 1 1, .submitJob 1 2], by decide, ?_, ?_⟩
  · exact (one_running_job_per_request.2 exampleRunner 1 3 (by decide)).1
  · exact (one_running_job_per_request.2 exampleRunner 1 3 (by decide)).2

/-! ### Claim C4 -/

/-- C4: a completion message whose attempt number does not match the request's
current attempt is always discarded — applying it leaves the runner state
(request records and jobs alike) completely unchanged.  This covers stale
completions arriving after a retry or cancellation has advanced the attempt. -/
theorem stale_completion_discarded (s : RunnerState) (r a artifact : Nat)
    (h : currentAttemptOf r s ≠ some a) :
    applyCompletion r a artifact s = s := by
  unfold applyCompletion
  cases hfind : s.reqs.find? (fun e => e.requestId == r) with
  | none => rfl
  | some e =>
    have he : e.currentAttempt ≠ a := by
      intro hEq
      apply h
      simp [currentAttemptOf, hfind, hEq]
    simp [he]

/-- C4 witness: a stale completion (attempt 1 against current attempt 2 of
request 1) is discarded at the concrete state `exampleRunner`. -/
theorem stale_completion_discarded_witness :
    currentAttemptOf 1 exampleRunner ≠ some 1 ∧
    applyCompletion 1 1 9 exampleRunner = exampleRunner :=
  ⟨by decide, stale_completion_discarded exampleRunner 1 1 9 (by decide)⟩

/-! ## Permission Guard (spec §4.1, README "Multi-Tier User System") -/

inductive Tier where
  | anonymous
  | limited
  | promoted
  | admin
deriving DecidableEq

inductive Action where
  | submit
  | vote
  | comment
  | approve
  | reject
  | promote
  | adminOverride
deriving DecidableEq

/-- Modelled from the spec: the Permission Guard (the backend's per-route tier
checks) is not among the repository's static sources.  §4.1 gives the rule
table, cumulative from lowest to highest tier: Anonymous — none of the
actions; Limited — Submit, Vote, Comment; Promoted — adds Approve, Reject,
Promote; Admin — all actions including AdminOverride.  Any pair not
enumerated is denied (fails closed). -/
def canPerform (t : Tier) (a : Action) : Bool :=
  match t, a with
  | .limited, .submit | .limited, .vote | .limited, .comment => true
  | .promoted, .submit | .promoted, .vote | .promoted, .comment => true
  | .promoted, .approve | .promoted, .reject | .promoted, .promote => true
  | .admin, _ => true
  | _, _ => false

inductive PipelineError where
  | permissionDenied
deriving DecidableEq

structure AppRequest where
  id : Nat
  title : String
  description : String
  category : String
  requester : Nat
deriving DecidableEq

structure PipelineState where
  appRequests : List AppRequest
  nextRequestId : Nat
deriving DecidableEq

/-- Modelled from the spec: §6 inbound
`submitRequest(title, description, category, requesterIdentity, requesterTier)`
→ request id or Permission error; the guard is consulted first, and a denial
creates no AppRequest record. -/
def submitRequest (tier : Tier) (title description category : String)
    (requester : Nat) (s : PipelineState) :
    PipelineState × Except PipelineError Nat :=
  if canPerform tier .submit then
    ({ appRequests := ⟨s.nextRequestId, title, description, category, requester⟩ :: s.appRequests,
       nextRequestId := s.nextRequestId + 1 },
     .ok s.nextRequestId)
  else (s, .error .permissionDenied)

/-! ### Claim C5 -/

/-- C5: the Permission Guard's tier-to-action table is exactly the cumulative
one — Anonymous is denied every action; Limited is allowed exactly Submit,
Vote, Comment; Promoted exactly those plus Approve, Reject, Promote; Admin all
seven actions — and an Anonymous `submitRequest` yields PermissionDenied and
creates no AppRequest record (the pipeline state is returned unchanged). -/
theorem permission_guard_table :
    (∀ a : Action, canPerform .anonymous a = false) ∧
    (∀ a : Action, canPerform .limited a =
      decide (a = .submit ∨ a = .vote ∨ a = .comment)) ∧
    (∀ a : Action, canPerform .promoted a =
      decide (a = .submit ∨ a = .vote ∨ a = .comment ∨
              a = .approve ∨ a = .reject ∨ a = .promote)) ∧
    (∀ a : Action, canPerform .admin a = true) ∧
    (∀ (title description category : String) (requester : Nat) (s : PipelineState),
      submitRequest .anonymous title description category requester s =
        (s, .error .permissionDenied)) := by
  refine ⟨?_, ?_, ?_, ?_, ?_⟩
  · intro a; cases a <;> rfl
  · intro a; cases a <;> rfl
  · intro a; cases a <;> rfl
  · intro a; cases a <;> rfl
  · intro title description category requester s
    rfl

/-! ## API client surface (api.js, `wildWest` lines 222–238 and `requests`
lines 244–268)

Each entry records a method of the client object together with the HTTP verb
and endpoint template it issues. -/

structure ClientMethod where
  name : String
  verb : String
  path : String
deriving DecidableEq

/-- The methods of `API.wildWest` (api.js lines 222–238). -/
def wildWestMethods : List ClientMethod :=
  [⟨"getAll", "GET", "/wild-west"⟩,
   ⟨"getById", "GET", "/wild-west/:id"⟩,
   ⟨"vote", "POST", "/wild-west/:id/vote"⟩,
   ⟨"submitFeedback", "POST", "/wild-west/:id/feedback"⟩]

/-- The methods of `API.requests` (api.js lines 244–268). -/
def requestsMethods : List ClientMethod :=
  [⟨"getAll", "GET", "/requests"⟩,
   ⟨"getById", "GET", "/requests/:id"⟩,
   ⟨"create", "POST", "/requests"⟩,
   ⟨"vote", "POST", "/requests/:id/vote"⟩,
   ⟨"unvote", "DELETE", "/requests/:id/vote"⟩,
   ⟨"getMyRequests", "GET", "/requests/mine"⟩]

inductive TargetKind where
  | request
  | stagedApp
deriving DecidableEq

inductive BoundaryOp where
  | castVoteOp
  | removeVoteOp
  | submitFeedbackOp
deriving DecidableEq

/-- The client method name that would implement a boundary operation:
`vote` casts a vote, `unvote` removes one, `submitFeedback` files feedback. -/
def methodNameFor : BoundaryOp → String
  | .castVoteOp => "vote"
  | .removeVoteOp => "unvote"
  | .submitFeedbackOp => "submitFeedback"

/-- Does the API client offer the boundary operation on the target kind? -/
def offers (k : TargetKind) (op : BoundaryOp) : Bool :=
  let methods := match k with
    | .request => requestsMethods
    | .stagedApp => wildWestMethods
  methods.any (fun m => m.name == methodNameFor op)

/-! ### Claim C6 -/

/-- C6 counterexample: the claim that `castVote`, `removeVote` and
`submitFeedback` are each available on both a request and a staged app is
false at concrete inputs — the client offers no vote-removal method on a
staged app (there is no `unvote` in `API.wildWest`) and no feedback method on
a request (there is no `submitFeedback` in `API.requests`). -/
theorem boundary_ops_not_uniform :
    offers .stagedApp .removeVoteOp = false ∧
    offers .request .submitFeedbackOp = false := by
  decide

/-- C6 (amended): the boundary operations the API client offers are exactly —
on a request, `castVote` and `removeVote`; on a staged app, `castVote` and
`submitFeedback`.  Removing a previously cast vote from a staged app and
filing feedback on a request are not offered. -/
theorem boundary_ops_exact :
    ∀ (k : TargetKind) (op : BoundaryOp),
      offers k op = true ↔
        ((k = .request ∧ (op = .castVoteOp ∨ op = .removeVoteOp)) ∨
         (k = .stagedApp ∧ (op = .castVoteOp ∨ op = .submitFeedbackOp))) := by
  intro k op
  cases k <;> cases op <;> decide

/-! ## API.request (api.js lines 24–58)

A fetch response is modelled by its ok flag, numeric status, content-type
header (absent or a string), and its body: `none` when the body does not parse
as JSON (so `response.json()` rejects), `some` a parsed object otherwise.  The
only body field `API.request` inspects is `message`; other fields are carried
opaquely. -/

/-- JavaScript `a || b` on a string `a`: the empty string is falsy. -/
def jsStringOr (m d : String) : String :=
  if m = "" then d else m

/-- JavaScript `data.message || b`: an absent or empty message is falsy. -/
def jsMessageOr (m : Option String) (d : String) : String :=
  match m with
  | some s => jsStringOr s d
  | none => d

structure JsonBody where
  message : Option String
  otherFields : List (String × String)
deriving DecidableEq

inductive ApiValue where
  | successTrue
  | jsonData (b : JsonBody)
deriving DecidableEq

inductive ApiOutcome where
  | resolved (v : ApiValue)
  | thrown (msg : String)
deriving DecidableEq

/-- Substring test on character lists, for `contentType.includes(...)`. -/
def listContainsSub (needle hay : List Char) : Bool :=
  (List.range (hay.length + 1)).any (fun i => needle.isPrefixOf (hay.drop i))

/-- The check `!contentType || !contentType.includes('application/json')`
(api.js line 40), in positive form: a present content type containing
`application/json`. -/
def includesJson : Option String → Bool
  | none => false
  | some ct => listContainsSub "application/json".data ct.data

structure HttpResponse where
  ok : Bool
  status : Nat
  contentType : Option String
  body : Option JsonBody
deriving DecidableEq

/-- Shallow embedding of `API.request` (api.js lines 24–58) applied to a
received response: a non-JSON content type yields `{success: true}` when ok
and an `HTTP error! status: <status>` Error otherwise; a JSON content type
first parses the body (a parse failure rejects, and the catch block rethrows),
then throws `data.message || 'HTTP error! status: <status>'` when not ok, and
resolves to the parsed data when ok. -/
def apiRequest (r : HttpResponse) : ApiOutcome :=
  if !(includesJson r.contentType) then
    if !r.ok then .thrown ("HTTP error! status: " ++ toString r.status)
    else .resolved .successTrue
  else
    match r.body with
    | none => .thrown "SyntaxError: Unexpected end of JSON input"
    | some data =>
      if !r.ok then
        .thrown (jsMessageOr data.message ("HTTP error! status: " ++ toString r.status))
      else .resolved (.jsonData data)

def isResolved : ApiOutcome → Bool
  | .resolved _ => true
  | .thrown _ => false

/-! ### Claim C8 -/

/-- A non-ok JSON response whose body carries an empty `message`. -/
def respEmptyMessage : HttpResponse :=
  ⟨false, 403, some "application/json", some ⟨some "", []⟩⟩

/-- An ok response with JSON content type whose body does not parse. -/
def respUnparseable : HttpResponse :=
  ⟨true, 200, some "application/json", none⟩

/-- C8 counterexample: the claim fails at two concrete responses.  At
`respEmptyMessage` the JSON body's message is present (the empty string) yet
the thrown Error carries the HTTP status text instead of that message; at
`respUnparseable` the response is ok yet `API.request` does not resolve
normally (the `response.json()` rejection is rethrown). -/
theorem apiRequest_claim_counterexample :
    respEmptyMessage.body = some ⟨some "", []⟩ ∧
    apiRequest respEmptyMessage = .thrown "HTTP error! status: 403" ∧
    respUnparseable.ok = true ∧
    isResolved (apiRequest respUnparseable) = false := by
  decide

/-- C8 (amended): `API.request` resolves normally iff the response is ok and,
when its content type includes `application/json`, its body parses as JSON.
A non-ok JSON response whose body parses and carries a non-empty message
throws an Error with exactly that message; a non-ok response with non-JSON
content type, or whose parsed body has an absent or empty message, throws
`HTTP error! status: <status>`; and an ok response whose content type is not
JSON resolves to `{success: true}`. -/
theorem apiRequest_resolves_iff (r : HttpResponse) :
    (isResolved (apiRequest r) = true ↔
      (r.ok = true ∧ (includesJson r.contentType = true → r.body.isSome = true))) ∧
    (∀ d m, r.ok = false → includesJson r.contentType = true → r.body = some d →
      d.message = some m → m ≠ "" → apiRequest r = .thrown m) ∧
    (r.ok = false → includesJson r.contentType = false →
      apiRequest r = .thrown ("HTTP error! status: " ++ toString r.status)) ∧
    (∀ d, r.ok = false → includesJson r.contentType = true → r.body = some d →
      (d.message = none ∨ d.message = some "") →
      apiRequest r = .thrown ("HTTP error! status: " ++ toString r.status)) ∧
    (r.ok = true → includesJson r.contentType = false →
      apiRequest r = .resolved .successTrue) := by
  refine ⟨?_, ?_, ?_, ?_, ?_⟩
  · cases hct : includesJson r.contentType with
    | false =>
      cases hok : r.ok with
      | false => simp [apiRequest, hct, hok, isResolved]
      | true => simp [apiRequest, hct, hok, isResolved]
    | true =>
      cases hbody : r.body with
      | none =>
        cases hok : r.ok with
        | false => simp [apiRequest, hct, hbody, hok, isResolved]
        | true => simp [apiRequest, hct, hbody, hok, isResolved]
      | some d =>
        cases hok : r.ok with
        | false => simp [apiRequest, hct, hbody, hok, isResolved]
        | true => simp [apiRequest, hct, hbody, hok, isResolved]
  · intro d m hok hct hbody hmsg hm
    simp [apiRequest, hct, hbody, hok, jsMessageOr, hmsg, jsStringOr, hm]
  · intro hok hct
    simp [apiRequest, hct, hok]
  · intro d hok hct hbody hmsg
    rcases hmsg with hmsg | hmsg <;>
      simp [apiRequest, hct, hbody, hok, jsMessageOr, hmsg, jsStringOr]
  · intro hok hct
    simp [apiRequest, hct, hok]

/-- A non-ok JSON response with a non-empty message. -/
def respBad : HttpResponse :=
  ⟨false, 400, some "application/json", some ⟨some "Bad request", []⟩⟩

/-- An ok response with a non-JSON content type. -/
def respPlainOk : HttpResponse :=
  ⟨true, 200, some "text/html", none⟩

/-- C8 amended witness: at the concrete responses `respBad` and `respPlainOk`
the amended characterization yields the verbatim message and the
`{success: true}` resolution. -/
theorem apiRequest_resolves_iff_witness :
    respBad.ok = false ∧
    apiRequest respBad = .thrown "Bad request" ∧
    apiRequest respPlainOk = .resolved .successTrue := by
  refine ⟨by decide, ?_, ?_⟩
  · exact (apiRequest_resolves_iff respBad).2.1 ⟨some "Bad request", []⟩ "Bad request"
      (by decide) (by decide) (by decide) (by decide) (by decide)
  · exact (apiRequest_resolves_iff respPlainOk).2.2.2.2 (by decide) (by decide)

/-! ## Toasts and form handlers (main.js) -/

inductive ToastKind where
  | success
  | error
  | info
  | warning
deriving DecidableEq

structure Toast where
  message : String
  kind : ToastKind
deriving DecidableEq

/-- Shallow embedding of `handleRequest` (main.js lines 410–438) applied to
the outcome of `API.requests.create`: on resolution it toasts
`Request submitted successfully!` and resets the form; on a thrown error it
toasts `error.message || 'Failed to submit request'` as an error and leaves
the form unreset. -/
def handleRequest (outcome : ApiOutcome) : Toast × Bool :=
  match outcome with
  | .resolved _ => (⟨"Request submitted successfully!", .success⟩, true)
  | .thrown m => (⟨jsStringOr m "Failed to submit request", .error⟩, false)

/-! ### Claim C7 -/

/-- C7: a denied mutating call — a non-ok JSON response whose body carries a
non-empty `message` (as a PermissionDenied does) — makes `API.request` throw
an Error with exactly that message, never resolving; and `handleRequest`
surfaces that same message verbatim in an error toast without performing any
success action (no success toast, no form reset). -/
theorem permission_denied_surfaced_verbatim (r : HttpResponse) (d : JsonBody)
    (m : String) (hok : r.ok = false) (hct : includesJson r.contentType = true)
    (hbody : r.body = some d) (hmsg : d.message = some m) (hm : m ≠ "") :
    apiRequest r = .thrown m ∧
    isResolved (apiRequest r) = false ∧
    handleRequest (apiRequest r) = (⟨m, .error⟩, false) := by
  have hthrow : apiRequest r = .thrown m := by
    simp [apiRequest, hct, hbody, hok, jsMessageOr, hmsg, jsStringOr, hm]
  refine ⟨hthrow, ?_, ?_⟩
  · rw [hthrow]; rfl
  · rw [hthrow]; simp [handleRequest, jsStringOr, hm]

/-- A PermissionDenied response as the backend would send it. -/
def respDenied : HttpResponse :=
  ⟨false, 403, some "application/json",
   some ⟨some "Permission denied: tier insufficient", []⟩⟩

/-- C7 witness: the concrete denial `respDenied` is thrown with its message
verbatim and toasted verbatim, with no success action. -/
theorem permission_denied_surfaced_verbatim_witness :
    respDenied.ok = false ∧
    apiRequest respDenied = .thrown "Permission denied: tier insufficient" ∧
    handleRequest (apiRequest respDenied) =
      (⟨"Permission denied: tier insufficient", .error⟩, false) := by
  refine ⟨by decide, ?_, ?_⟩
  · exact (permission_denied_surfaced_verbatim respDenied
      ⟨some "Permission denied: tier insufficient", []⟩
      "Permission denied: tier insufficient"
      (by decide) (by decide) (by decide) (by decide) (by decide)).1
  · exact (permission_denied_surfaced_verbatim respDenied
      ⟨some "Permission denied: tier insufficient", []⟩
      "Permission denied: tier insufficient"
      (by decide) (by decide) (by decide) (by decide) (by decide)).2.2

/-! ## handleRegister (main.js lines 381–408) -/

structure RegisterForm where
  username : String
  email : String
  password : String
  confirmPassword : String
deriving DecidableEq

structure RegisterOutcome where
  registerCalled : Bool
  toast : Toast
  redirectedToProfile : Bool
deriving DecidableEq

/-- Shallow embedding of `handleRegister` (main.js lines 381–408): when the
password and confirm-password fields differ, the handler toasts
`Passwords do not match` and returns before `API.auth.register` is called;
otherwise it calls register and reports the outcome (`error.message ||
'Registration failed'` on failure). -/
def handleRegister (f : RegisterForm) (registerResult : Except String Unit) :
    RegisterOutcome :=
  if f.password ≠ f.confirmPassword then
    ⟨false, ⟨"Passwords do not match", .error⟩, false⟩
  else
    match registerResult with
    | .ok _ => ⟨true, ⟨"Account created successfully!", .success⟩, true⟩
    | .error m => ⟨true, ⟨jsStringOr m "Registration failed", .error⟩, false⟩

/-! ### Claim C10 -/

/-- C10: whenever the password and confirm-password fields differ,
`handleRegister` returns with the mismatch toast and without calling
`API.auth.register` — regardless of what a register call would return. -/
theorem mismatched_passwords_never_register (f : RegisterForm)
    (res : Except String Unit) (h : f.password ≠ f.confirmPassword) :
    handleRegister f res = ⟨false, ⟨"Passwords do not match", .error⟩, false⟩ := by
  simp [handleRegister, h]

/-- C10 witness: a concrete submission with mismatched passwords issues no
registration request. -/
theorem mismatched_passwords_never_register_witness :
    ("hunter2" : String) ≠ "hunter3" ∧
    (handleRegister ⟨"sam", "sam@example.com", "hunter2", "hunter3"⟩
        (.ok ())).registerCalled = false := by
  refine ⟨by decide, ?_⟩
  rw [mismatched_passwords_never_register _ (.ok ()) (by decide)]

/-! ## escapeHtml (main.js lines 642–646)

The source sets `div.textContent = text` and reads back `div.innerHTML`.
Serializing a text node escapes `&` as `&amp;`, U+00A0 as `&nbsp;`, `<` as
`&lt;` and `>` as `&gt;`, and leaves every other character as itself. -/

def escChar (c : Char) : List Char :=
  if c = '&' then "&amp;".data
  else if c = '\u00A0' then "&nbsp;".data
  else if c = '<' then "&lt;".data
  else if c = '>' then "&gt;".data
  else [c]

def escList : List Char → List Char
  | [] => []
  | c :: cs => escChar c ++ escList cs

/-- Shallow embedding of `escapeHtml` (main.js lines 642–646). -/
def escapeHtml (s : String) : String :=
  ⟨escList s.data⟩

/-- HTML text-content interpretation of markup: decoding of the character
entities the serializer emits; a bare `&` that starts no known entity stays a
literal `&`, exactly as an HTML parser treats it. -/
def unescList : List Char → List Char
  | '&' :: 'a' :: 'm' :: 'p' :: ';' :: rest => '&' :: unescList rest
  | '&' :: 'l' :: 't' :: ';' :: rest => '<' :: unescList rest
  | '&' :: 'g' :: 't' :: ';' :: rest => '>' :: unescList rest
  | '&' :: 'n' :: 'b' :: 's' :: 'p' :: ';' :: rest => '\u00A0' :: unescList rest
  | c :: rest => c :: unescList rest
  | [] => []

lemma escChar_no_angle (c : Char) : ∀ x ∈ escChar c, x ≠ '<' ∧ x ≠ '>' := by
  unfold escChar
  split_ifs with h1 h2 h3 h4
  · decide
  · decide
  · decide
  · decide
  · intro x hx
    simp at hx
    subst hx
    exact ⟨h3, h4⟩

lemma escList_no_angle (l : List Char) : ∀ x ∈ escList l, x ≠ '<' ∧ x ≠ '>' := by
  induction l with
  | nil => simp [escList]
  | cons c cs ih =>
    intro x hx
    rcases List.mem_append.mp (by simpa [escList] using hx) with hx | hx
    · exact escChar_no_angle c x hx
    · exact ih x hx

lemma unescList_escList (l : List Char) : unescList (escList l) = l := by
  induction l with
  | nil => rfl
  | cons c cs ih =>
    show unescList (escChar c ++ escList cs) = c :: cs
    by_cases h1 : c = '&'
    · subst h1; simp [escChar, unescList, ih]
    · by_cases h2 : c = '\u00A0'
      · subst h2; simp [escChar, h1, unescList, ih]
      · by_cases h3 : c = '<'
        · subst h3; simp [escChar, h1, h2, unescList, ih]
        · by_cases h4 : c = '>'
          · subst h4; simp [escChar, h1, h2, h3, unescList, ih]
          · simp [escChar, h1, h2, h3, h4, unescList, ih]

/-! ### Claim C9 -/

/-- C9: for every input string, `escapeHtml` produces a string containing no
literal `<` or `>` character, and interpreting the result as HTML markup
(decoding the emitted character entities) yields text content equal to the
original string: HTML-unescape is a left inverse of `escapeHtml`. -/
theorem escapeHtml_safe_and_invertible (s : String) :
    (∀ c ∈ (escapeHtml s).data, c ≠ '<' ∧ c ≠ '>') ∧
    unescList (escapeHtml s).data = s.data := by
  constructor
  · exact escList_no_angle s.data
  · exact unescList_escList s.data

/-- C9 witness: the round trip and the bracket-freeness at a concrete string
holding all the escaped characters. -/
theorem escapeHtml_safe_and_invertible_witness :
    ('a' ∈ (escapeHtml "a<b>&c").data ∧ 'a' ≠ '<' ∧ 'a' ≠ '>') ∧
    unescList (escapeHtml "a<b>&c").data = ("a<b>&c" : String).data := by
  constructor
  · exact ⟨by decide, (escapeHtml_safe_and_invertible "a<b>&c").1 'a' (by decide)⟩
  · exact (escapeHtml_safe_and_invertible "a<b>&c").2

end FlickForge
